import Mathlib

/-!
Verification development for the server side of the universe-i18n package
(`src/source/server.ts`).

The file shallow-embeds the state and operations of that module:

* the connection identity resolver `i18n._getConnectionId` (server.ts:38-49),
* the connection locale registry `_localesPerConnections` together with
  `Meteor.onConnection` / `onClose` wiring (server.ts:51-53, 229-234) and
  `i18n.setLocaleOnConnection` (server.ts:129-139),
* the locale cache `cache` and `i18n.getCache` (server.ts:55-71) plus the
  invalidation performed by `i18n.loadLocale` (server.ts:108),
* the request-URL construction of `i18n.loadLocale` (server.ts:73-97),
* the HTTP delivery handler mounted under the route prefix
  (server.ts:141-207), and
* the RPC method `universe.i18n.setServerLocaleForConnection`
  (server.ts:209-227).

JavaScript `Record<string, T>` objects are embedded as association lists
`List (String × T)`; a stored JS `undefined` is `Option.none` where it can
occur.  External collaborators that live outside `server.ts` (the locale
normalization service `i18n.normalize`, the formatters from
`code-generators`, Node's `url.resolve`, and the clock) are passed in as
explicit parameters.
-/

namespace UniverseI18n

/-! ### Association-list primitives (JS `Record<string, T>` semantics) -/

/-- Read a key from a JS record: `record[k]`, distinguishing an absent key
(`none`) from a present one (`some v`). -/
def listLookup {α : Type} (k : String) : List (String × α) → Option α
  | [] => none
  | (k', v) :: rest => if k' = k then some v else listLookup k rest

/-- Write a key of a JS record: `record[k] = v` (overwrite or insert). -/
def listSet {α : Type} (k : String) (v : α) : List (String × α) → List (String × α)
  | [] => [(k, v)]
  | (k', v') :: rest => if k' = k then (k, v) :: rest else (k', v') :: listSet k v rest

/-- Remove a key from a JS record: `delete record[k]`. -/
def listErase {α : Type} (k : String) : List (String × α) → List (String × α)
  | [] => []
  | (k', v) :: rest => if k' = k then listErase k rest else (k', v) :: listErase k rest

/-! ### Connection identity resolver (server.ts:38-49)

```ts
i18n._getConnectionId = connection => {
  let connectionId = connection?.id;
  try {
    connectionId =
      (DDP as any)._CurrentInvocation.get()?.connection?.id ??
      _publishConnectionId.get();
  } catch (error) {
    // Outside of fibers we cannot detect the connection id.
  }
  return connectionId;
};
```

The two ambient sources (`DDP._CurrentInvocation` and the
`_publishConnectionId` environment variable) and the possibility that
reading them throws are captured in `AmbientCtx`. -/

/-- Ambient execution context of a call into the resolver:
`ddpConnectionId` is `DDP._CurrentInvocation.get()?.connection?.id`,
`publishConnectionId` is `_publishConnectionId.get()`, and
`ambientReadThrows` records whether reading the ambient contexts throws
(the `catch` branch of the source). -/
structure AmbientCtx where
  ddpConnectionId : Option String
  publishConnectionId : Option String
  ambientReadThrows : Bool
deriving DecidableEq, Repr

/-- `i18n._getConnectionId(connection)`.  `explicit` is `connection?.id`.
Note the source assigns `connection?.id` first and then, unless the
ambient read throws, unconditionally overwrites it with
`ddp ?? publish` (there is no `connectionId ??` in front). -/
def getConnectionId (explicit : Option String) (ctx : AmbientCtx) : Option String :=
  let connectionId := explicit
  if ctx.ambientReadThrows then
    connectionId
  else
    ctx.ddpConnectionId.orElse fun _ => ctx.publishConnectionId

/-! ### Connection locale registry (server.ts:51-53, 129-139, 229-234) -/

/-- The process-wide map `_localesPerConnections : Record<string, string>`.
A value `some s` is a stored JS string; `none` is a stored JS `undefined`
(possible because `setLocaleOnConnection` stores `i18n.normalize(locale)!`,
whose runtime value may be `undefined`). -/
abbrev Registry := List (String × Option String)

/-- The raw map read `_localesPerConnections[id]`: `none` both when the key
is absent and when the stored value is `undefined`. -/
def registryRead (id : String) (reg : Registry) : Option String :=
  match listLookup id reg with
  | some (some s) => some s
  | _ => none

/-- `typeof _localesPerConnections[id] === 'string'`. -/
def typeofIsString : Option (Option String) → Bool
  | some (some _) => true
  | _ => false

/-- `Meteor.onConnection` body (server.ts:230):
`_localesPerConnections[connection.id] = ''`. -/
def onConnectionOpen (id : String) (reg : Registry) : Registry :=
  listSet id (some "") reg

/-- `connection.onClose` body (server.ts:232):
`delete _localesPerConnections[connection.id]`. -/
def onConnectionClose (id : String) (reg : Registry) : Registry :=
  listErase id reg

/-- `i18n.setLocaleOnConnection(locale, connectionId)` (server.ts:129-139):

```ts
if (typeof _localesPerConnections[connectionId!] === 'string') {
  _localesPerConnections[connectionId!] = i18n.normalize(locale)!;
  return;
}
throw new Error(`There is no connection under id: ${connectionId}`);
```

`normalize` is the external normalization service (`i18n.normalize` from
common.ts); it returns `none` for an unrecognized locale (JS `undefined`). -/
def setLocaleOnConnection (normalize : String → Option String) (locale : String)
    (connectionId : String) (reg : Registry) : Except String Registry :=
  if typeofIsString (listLookup connectionId reg) then
    .ok (listSet connectionId (normalize locale) reg)
  else
    .error ("There is no connection under id: " ++ connectionId)

/-! ### Locale cache (server.ts:55-71)

```ts
const cache: Record<string, GetCacheEntry> = {};
i18n.getCache = (locale => {
  if (!locale) {
    return cache;
  }
  if (!cache[locale]) {
    cache[locale] = {
      updatedAt: new Date().toUTCString(),
      getYML, getJSON, getJS,
    };
  }
  return cache[locale];
}) as GetCacheFunction;
```

Every entry stores the same three module-level formatter handles
(`getYML`, `getJSON`, `getJS` from code-generators), so the entry carries
no information beyond `updatedAt`; the embedding records `updatedAt` and
the delivery handler dispatches to the formatter parameters directly. -/

/-- A locale-cache entry; `updatedAt` is `new Date().toUTCString()` at
creation time (the formatter handles of the source entry are the fixed
module constants and are elided). -/
structure GetCacheEntry where
  updatedAt : String
deriving DecidableEq, Repr

/-- The process-wide map `cache : Record<string, GetCacheEntry>`. -/
abbrev Cache := List (String × GetCacheEntry)

/-- Result of `i18n.getCache`: the whole map when called with a falsy
locale, otherwise a single entry. -/
inductive GetCacheResult where
  | full (c : Cache)
  | entry (e : GetCacheEntry)
deriving DecidableEq, Repr

/-- `i18n.getCache(locale)`; `now` is the clock reading
`new Date().toUTCString()` used if an entry must be created.  Returns the
function's result together with the cache after the call (the source
mutates the shared `cache` record in place). -/
def getCache (locale : String) (now : String) (c : Cache) : GetCacheResult × Cache :=
  if locale = "" then
    (.full c, c)
  else
    match listLookup locale c with
    | some e => (.entry e, c)
    | none => (.entry ⟨now⟩, listSet locale ⟨now⟩ c)

/-- The cache invalidation performed by `i18n.loadLocale` after merging new
translations (server.ts:108): `delete cache[normalizedLocale]`. -/
def deleteCacheEntry (locale : String) (c : Cache) : Cache :=
  listErase locale c

/-! ### Remote locale loader: request-URL construction (server.ts:73-97)

```ts
const normalizedLocale = i18n.normalize(locale);
if (!normalizedLocale) {
  i18n._logger(new Error(`Unrecognized locale "${locale}"`));
  return Promise.resolve(undefined);
}
queryParams.type = 'json';
if (fresh) {
  queryParams.ts = new Date().getTime();
}
const url = resolve(
  host,
  pathOnHost + normalizedLocale + '?type=' + queryParams.type,
);
```

`resolveUrl` stands for Node's `url.resolve` and `normalize` for the
external `i18n.normalize`; `nowMs` is `new Date().getTime()`. -/

/-- Options of `i18n.loadLocale` that feed the URL construction
(`queryParams` is the caller-supplied record; `host` and `pathOnHost`
default to `i18n.options` values at the call site). -/
structure LoadLocaleOptions where
  fresh : Bool
  host : String
  pathOnHost : String
  queryParams : List (String × String)
  silent : Bool
deriving Repr

/-- The URL that `i18n.loadLocale` passes to `fetch`, or `none` when the
locale fails normalization (the source logs and resolves `undefined`
without issuing a request). -/
def loadLocaleUrl (resolveUrl : String → String → String)
    (normalize : String → Option String) (locale : String)
    (opts : LoadLocaleOptions) (nowMs : Nat) : Option String :=
  match normalize locale with
  | none => none
  | some normalizedLocale =>
    let qp1 := listSet "type" "json" opts.queryParams
    let qp2 := if opts.fresh then listSet "ts" (toString nowMs) qp1 else qp1
    let typeValue :=
      match listLookup "type" qp2 with
      | some v => v
      | none => "undefined"
    some (resolveUrl opts.host (opts.pathOnHost ++ normalizedLocale ++ "?type=" ++ typeValue))

/-! ### Delivery endpoint: HTTP handler (server.ts:141-207) -/

/-- One character of the tail of the locale pattern:
`[a-z0-9\-_]` under the regex `i` flag (`Char.isAlpha` is ASCII
`[a-zA-Z]`, `Char.isDigit` is ASCII `[0-9]`). -/
def isLocaleTailChar (ch : Char) : Bool :=
  ch.isAlpha || ch.isDigit || ch == '-' || ch == '_'

/-- `pathname?.match(/^\/?([a-z]{2}[a-z0-9\-_]*)/i)?.[1]` (server.ts:159):
after an optional leading slash, two ASCII letters followed by the longest
run of letters/digits/hyphen/underscore; the captured text keeps its
original case.  `none` when the pattern does not match. -/
def localeMatch (pathname : String) : Option String :=
  let cs :=
    match pathname.data with
    | '/' :: rest => rest
    | other => other
  match cs with
  | c1 :: c2 :: rest =>
    if c1.isAlpha && c2.isAlpha then
      some (String.mk (c1 :: c2 :: rest.takeWhile isLocaleTailChar))
    else none
  | _ => none

/-- `type && !['js', 'json', 'yml'].includes(type)` (server.ts:153): the
query value `none` models an absent parameter; `some ""` is falsy in JS,
so it does not trip the check either. -/
def typeCheckFails : Option String → Bool
  | none => false
  | some s =>
    if s = "" then false
    else if s = "js" ∨ s = "json" ∨ s = "yml" then false
    else true

/-- `${type || 'js'}` used for the attachment filename (server.ts:178). -/
def typeOrDefault : Option String → String
  | none => "js"
  | some s => if s = "" then "js" else s

/-- The external formatter service from code-generators: `getJS(locale,
namespace, preload)`, `getJSON(locale, namespace, diff)` and
`getYML(locale, namespace, diff)`. -/
structure Formatters where
  getJS : String → Option String → Bool → String
  getJSON : String → Option String → Option String → String
  getYML : String → Option String → Option String → String

/-- An HTTP request as seen by the handler after `url.parse`:
`pathname` is the path below the mount prefix `/universe/locale/`, and the
remaining fields are the destructured query parameters `type`,
`namespace`, `diff`, `preload`, `attachment` (the latter two as their JS
truthiness, matching how the handler consumes them). -/
structure I18nRequest where
  pathname : String
  typeParam : Option String
  namespaceParam : Option String
  diffParam : Option String
  preloadParam : Bool
  attachmentParam : Bool
deriving Repr

/-- Outcome of the connect handler: `next()` (request passed through
unhandled) or a written response with status, headers and optional body. -/
inductive HandlerOutcome where
  | next
  | respond (status : Nat) (headers : List (String × String)) (body : Option String)
deriving DecidableEq, Repr

/-- The status code of an outcome, `none` for a passed-through request. -/
def HandlerOutcome.status : HandlerOutcome → Option Nat
  | .next => none
  | .respond s _ _ => some s

/-- The written body of an outcome, `none` for a passed-through request or
a bodyless response. -/
def HandlerOutcome.body : HandlerOutcome → Option String
  | .next => none
  | .respond _ _ b => b

/-- The connect handler mounted at `/universe/locale/` (server.ts:141-207).
`translationsHeaders` is `i18n.options.translationsHeaders`; `now` is the
clock reading used by `getCache` should it create an entry.  Returns the
outcome and the cache after the request (the source mutates the shared
`cache`).  The `.full` branch mirrors the JS behaviour of reading
`updatedAt` off the whole map (undefined, hence 501); it is unreachable
from a matched locale, which is never empty. -/
def handler (fmts : Formatters) (translationsHeaders : List (String × String))
    (req : I18nRequest) (now : String) (c : Cache) : HandlerOutcome × Cache :=
  if typeCheckFails req.typeParam then
    (.respond 415 [] none, c)
  else
    match localeMatch req.pathname with
    | none => (.next, c)
    | some locale =>
      match getCache locale now c with
      | (.full _, c1) => (.respond 501 [] none, c1)
      | (.entry e, c1) =>
        if e.updatedAt = "" then
          (.respond 501 [] none, c1)
        else
          let headers0 := translationsHeaders ++ [("Last-Modified", e.updatedAt)]
          let headers :=
            if req.attachmentParam then
              headers0 ++ [("Content-Disposition",
                "attachment; filename=\"" ++ locale ++ ".i18n." ++
                  typeOrDefault req.typeParam ++ "\"")]
            else headers0
          if req.typeParam = some "json" then
            (.respond 200 (("Content-Type", "application/json; charset=utf-8") :: headers)
              (some (fmts.getJSON locale req.namespaceParam req.diffParam)), c1)
          else if req.typeParam = some "yml" then
            (.respond 200 (("Content-Type", "text/yaml; charset=utf-8") :: headers)
              (some (fmts.getYML locale req.namespaceParam req.diffParam)), c1)
          else
            (.respond 200 (("Content-Type", "application/javascript; charset=utf-8") :: headers)
              (some (fmts.getJS locale req.namespaceParam req.preloadParam)), c1)

/-- The output of the formatter selected by the request's type parameter,
mirroring the handler's `switch (type)` dispatch (server.ts:182-206):
`getJSON(locale, namespace, diff)` for type json, `getYML(locale,
namespace, diff)` for type yml, and `getJS(locale, namespace, preload)`
for the default branch. -/
def selectedFormatOutput (fmts : Formatters) (req : I18nRequest)
    (locale : String) : String :=
  if req.typeParam = some "json" then
    fmts.getJSON locale req.namespaceParam req.diffParam
  else if req.typeParam = some "yml" then
    fmts.getYML locale req.namespaceParam req.diffParam
  else
    fmts.getJS locale req.namespaceParam req.preloadParam

/-! ### RPC method `universe.i18n.setServerLocaleForConnection`
(server.ts:209-227)

```ts
check(locale, Match.Any);           // never fails
if (typeof locale !== 'string' || !i18n.options.sameLocaleOnServerConnection) {
  return;
}
const connectionId = i18n._getConnectionId(this.connection);
if (!connectionId) {
  return;
}
i18n.setLocaleOnConnection(locale, connectionId);
```
-/

/-- A JavaScript value arriving over the wire as the method argument. -/
inductive JsVal where
  | str (s : String)
  | num (n : Int)
  | boolVal (b : Bool)
  | nullVal
  | undef
  | objVal
deriving DecidableEq, Repr

/-- `typeof v === 'string'`. -/
def JsVal.isStr : JsVal → Bool
  | .str _ => true
  | _ => false

/-- The method body.  `sameLocaleOnServerConnection` is the feature flag
`i18n.options.sameLocaleOnServerConnection`; `thisConnection` is
`this.connection?.id`; the `!connectionId` guard is falsy for both
`undefined` and the empty string. -/
def setServerLocaleForConnection (locale : JsVal)
    (sameLocaleOnServerConnection : Bool) (thisConnection : Option String)
    (ctx : AmbientCtx) (normalize : String → Option String)
    (reg : Registry) : Except String Registry :=
  match locale with
  | .str s =>
    if sameLocaleOnServerConnection then
      match getConnectionId thisConnection ctx with
      | none => .ok reg
      | some connectionId =>
        if connectionId = "" then .ok reg
        else setLocaleOnConnection normalize s connectionId reg
    else .ok reg
  | _ => .ok reg

/-! ### Concrete instances of the external collaborators, used by the
closed theorems below -/

/-- A concrete instance of the external normalization service for closed
statements: it recognizes the locales "fr" and "en" and rejects anything
else (per spec section 4.5 an unrecognized locale normalizes to
undefined). -/
def sampleNormalize : String → Option String :=
  fun s => if s = "fr" then some "fr" else if s = "en" then some "en" else none

/-- A concrete instance of the external formatter service for closed
statements. -/
def sampleFormatters : Formatters :=
  ⟨fun _ _ _ => "JS-OUT", fun _ _ _ => "JSON-OUT", fun _ _ _ => "YML-OUT"⟩

/-! ### Association-list lemmas -/

theorem listLookup_listSet_self {α : Type} (k : String) (v : α)
    (l : List (String × α)) : listLookup k (listSet k v l) = some v := by
  induction l with
  | nil => simp [listLookup, listSet]
  | cons hd tl ih =>
    by_cases h : hd.1 = k
    · simp [listLookup, listSet, h]
    · simp [listLookup, listSet, h, ih]

theorem listLookup_listSet_ne {α : Type} (k k2 : String) (v : α)
    (l : List (String × α)) (h : k ≠ k2) :
    listLookup k (listSet k2 v l) = listLookup k l := by
  have h2 : ¬(k2 = k) := fun hh => h hh.symm
  induction l with
  | nil => simp [listLookup, listSet, h2]
  | cons hd tl ih =>
    by_cases hh : hd.1 = k2
    · by_cases hk : hd.1 = k
      · exact absurd (hh ▸ hk) h2
      · simp [listLookup, listSet, hh, hk, h2]
    · simp [listLookup, listSet, hh, ih]

theorem listLookup_listErase_self {α : Type} (k : String)
    (l : List (String × α)) : listLookup k (listErase k l) = none := by
  induction l with
  | nil => simp [listLookup, listErase]
  | cons hd tl ih =>
    by_cases h : hd.1 = k
    · simp [listErase, h, ih]
    · simp [listLookup, listErase, h, ih]

/-! ### Claim theorems -/

/-- Claim C2: evaluating `i18n._getConnectionId` at the failing inputs.
With an explicit connection of id "c1" and the ambient reads succeeding,
the resolver does not return "c1": the `try` body unconditionally
overwrites the explicit id, so the result is no connection when both
ambient sources are absent, and the ambient RPC-invocation id "c2" when
one is present — contradicting the claim that an explicit connection's id
always wins. -/
theorem C2_resolver_overrides_explicit :
    getConnectionId (some "c1") ⟨none, none, false⟩ = none
    ∧ getConnectionId (some "c1") ⟨some "c2", none, false⟩ = some "c2" :=
  ⟨rfl, rfl⟩

/-- Claim C4: immediately after `onConnectionOpen c` the registry read for
`c` yields the empty string, and after `onConnectionClose c` the entry is
removed (the lookup is absent) so the read yields no locale. -/
theorem C4_registry_lifecycle (c : String) (reg reg2 : Registry) :
    registryRead c (onConnectionOpen c reg) = some ""
    ∧ listLookup c (onConnectionClose c reg2) = none
    ∧ registryRead c (onConnectionClose c reg2) = none := by
  refine ⟨?_, ?_, ?_⟩
  · unfold registryRead onConnectionOpen
    rw [listLookup_listSet_self]
  · exact listLookup_listErase_self c reg2
  · unfold registryRead onConnectionClose
    rw [listLookup_listErase_self]

/-- Claim C5, counterexample: the connection "c1" is opened and never
closed; a first `setLocaleOnConnection` with the unrecognized locale "zz"
succeeds and stores undefined; a second `setLocaleOnConnection` for the
same, still-open connection then throws NoSuchConnection even though the
registry entry for "c1" exists — refuting "throws if and only if c has no
registry entry". -/
theorem C5_counterexample :
    setLocaleOnConnection sampleNormalize "zz" "c1" (onConnectionOpen "c1" [])
      = .ok [("c1", none)]
    ∧ listLookup "c1" ([("c1", none)] : Registry) = some none
    ∧ setLocaleOnConnection sampleNormalize "fr" "c1" [("c1", none)]
      = .error "There is no connection under id: c1" :=
  ⟨rfl, rfl, rfl⟩

/-- Claim C5 (amended): `setLocaleOnConnection` throws the NoSuchConnection
error iff the registry holds no string-valued entry for the connection id
(never opened, already closed, or clobbered with undefined by a previously
failed normalization); when a string-valued entry exists it overwrites the
entry with `normalize locale`, and the registry read afterwards returns
exactly `normalize locale`. -/
theorem C5_amended_theorem (normalize : String → Option String)
    (locale c : String) (reg : Registry) :
    ((∃ msg, setLocaleOnConnection normalize locale c reg = .error msg) ↔
      typeofIsString (listLookup c reg) = false)
    ∧ (typeofIsString (listLookup c reg) = true →
        setLocaleOnConnection normalize locale c reg
          = .ok (listSet c (normalize locale) reg)
        ∧ registryRead c (listSet c (normalize locale) reg) = normalize locale) := by
  by_cases h : typeofIsString (listLookup c reg) = true
  · refine ⟨⟨fun hex => ?_, fun hfalse => ?_⟩, fun _ => ⟨?_, ?_⟩⟩
    · obtain ⟨msg, hmsg⟩ := hex
      rw [setLocaleOnConnection, if_pos h] at hmsg
      exact absurd hmsg (by simp)
    · rw [h] at hfalse
      exact absurd hfalse (by simp)
    · rw [setLocaleOnConnection, if_pos h]
    · unfold registryRead
      rw [listLookup_listSet_self]
      cases normalize locale <;> rfl
  · have hfalse : typeofIsString (listLookup c reg) = false := by
      revert h
      cases typeofIsString (listLookup c reg) <;> simp
    refine ⟨⟨fun _ => hfalse, fun _ => ?_⟩, fun htrue => absurd htrue h⟩
    exact ⟨"There is no connection under id: " ++ c,
      by rw [setLocaleOnConnection, if_neg h]⟩

/-- Claim C5 (amended), witness: a freshly opened connection "c1" holds a
string-valued entry, setting "fr" on it succeeds, and the registry read
afterwards yields "fr". -/
theorem C5_amended_witness :
    typeofIsString (listLookup "c1" ([("c1", some "")] : Registry)) = true
    ∧ setLocaleOnConnection sampleNormalize "fr" "c1" [("c1", some "")]
      = .ok [("c1", some "fr")]
    ∧ registryRead "c1" ([("c1", some "fr")] : Registry) = some "fr" := by
  have h := (C5_amended_theorem sampleNormalize "fr" "c1" [("c1", some "")]).2 rfl
  exact ⟨rfl, h.1, h.2⟩

/-- Claim C8: a non-string argument to the RPC method
`universe.i18n.setServerLocaleForConnection` is a silent no-op — the
method returns the registry unchanged without throwing, so a connection
whose locale was "fr" still reads "fr" afterwards. -/
theorem C8_nonstring_noop (v : JsVal) (flag : Bool) (thisConn : Option String)
    (ctx : AmbientCtx) (normalize : String → Option String) (reg : Registry)
    (c : String) (hv : v.isStr = false) (hfr : registryRead c reg = some "fr") :
    setServerLocaleForConnection v flag thisConn ctx normalize reg = .ok reg
    ∧ registryRead c reg = some "fr" := by
  refine ⟨?_, hfr⟩
  cases v with
  | str s => simp [JsVal.isStr] at hv
  | num n => rfl
  | boolVal b => rfl
  | nullVal => rfl
  | undef => rfl
  | objVal => rfl

/-- Claim C8, witness: on a registry where connection "c1" reads "fr",
calling the method with the number 5 leaves the registry unchanged. -/
theorem C8_nonstring_noop_witness :
    (JsVal.num 5).isStr = false
    ∧ registryRead "c1" ([("c1", some "fr")] : Registry) = some "fr"
    ∧ setServerLocaleForConnection (.num 5) true (some "c1")
        ⟨some "c1", none, false⟩ sampleNormalize [("c1", some "fr")]
      = .ok [("c1", some "fr")] := by
  refine ⟨rfl, rfl, ?_⟩
  exact (C8_nonstring_noop (.num 5) true (some "c1") ⟨some "c1", none, false⟩
    sampleNormalize [("c1", some "fr")] "c1" rfl rfl).1

/-- Claim C9: on an open connection (string-valued registry entry), a
`setLocaleOnConnection` whose locale fails normalization succeeds and
overwrites the entry with undefined; thereafter the registry read yields
no locale, and any subsequent `setLocaleOnConnection` for the still-open
connection throws the NoSuchConnection error. -/
theorem C9_undefined_clobber (normalize normalize2 : String → Option String)
    (badLocale newLocale c : String) (reg : Registry)
    (hbad : normalize badLocale = none)
    (hopen : typeofIsString (listLookup c reg) = true) :
    setLocaleOnConnection normalize badLocale c reg = .ok (listSet c none reg)
    ∧ registryRead c (listSet c none reg) = none
    ∧ setLocaleOnConnection normalize2 newLocale c (listSet c none reg)
      = .error ("There is no connection under id: " ++ c) := by
  refine ⟨?_, ?_, ?_⟩
  · rw [setLocaleOnConnection, if_pos hopen, hbad]
  · unfold registryRead
    rw [listLookup_listSet_self]
  · have hl := listLookup_listSet_self c (none : Option String) reg
    rw [setLocaleOnConnection, hl]
    rfl

/-- Claim C9, witness: opening "c1" and setting the unrecognized locale
"zz" stores undefined; the read then yields no locale and a further set of
"fr" throws. -/
theorem C9_undefined_clobber_witness :
    sampleNormalize "zz" = none
    ∧ typeofIsString (listLookup "c1" ([("c1", some "")] : Registry)) = true
    ∧ registryRead "c1" ([("c1", none)] : Registry) = none
    ∧ setLocaleOnConnection sampleNormalize "fr" "c1" [("c1", none)]
      = .error "There is no connection under id: c1" := by
  have h := C9_undefined_clobber sampleNormalize sampleNormalize "zz" "fr" "c1"
    [("c1", some "")] rfl rfl
  exact ⟨rfl, rfl, h.2.1, h.2.2⟩

/-- Claim C6: the first `getCache L` creates an entry carrying the current
clock reading; a second `getCache L` without an intervening invalidation
returns the identical entry and leaves the cache unchanged; invalidating
and reading again yields an entry carrying the new clock reading, distinct
from the first whenever the clock moved. -/
theorem C6_cache_lifecycle (L t1 t2 : String) (c : Cache)
    (hL : L ≠ "") (hnone : listLookup L c = none) :
    getCache L t1 c = (.entry ⟨t1⟩, listSet L ⟨t1⟩ c)
    ∧ getCache L t2 (listSet L ⟨t1⟩ c) = (.entry ⟨t1⟩, listSet L ⟨t1⟩ c)
    ∧ getCache L t2 (deleteCacheEntry L (listSet L ⟨t1⟩ c))
      = (.entry ⟨t2⟩, listSet L ⟨t2⟩ (deleteCacheEntry L (listSet L ⟨t1⟩ c)))
    ∧ (t1 ≠ t2 → (⟨t1⟩ : GetCacheEntry) ≠ (⟨t2⟩ : GetCacheEntry)) := by
  refine ⟨?_, ?_, ?_, ?_⟩
  · simp [getCache, hL, hnone]
  · simp [getCache, hL, listLookup_listSet_self]
  · simp [getCache, hL, deleteCacheEntry, listLookup_listErase_self]
  · intro h12 hEq
    exact h12 (congrArg GetCacheEntry.updatedAt hEq)

/-- Claim C6, witness: on the empty cache, `getCache "en"` at clock "A"
creates the entry stamped "A". -/
theorem C6_cache_lifecycle_witness :
    ("en" : String) ≠ ""
    ∧ listLookup "en" ([] : Cache) = none
    ∧ getCache "en" "A" [] = (.entry ⟨"A"⟩, [("en", ⟨"A"⟩)]) := by
  refine ⟨by decide, rfl, ?_⟩
  exact (C6_cache_lifecycle "en" "A" "B" [] (by decide) rfl).1

/-- Claim C3: the URL handed to `fetch` by `i18n.loadLocale` is built only
from the host, the path on host, the normalized locale and type=json: it
is the same whether fresh is requested or not, and is independent of the
clock — the ts value stored into queryParams is never serialized, so no
cache-busting timestamp appears in the request URL. -/
theorem C3_url_no_timestamp (resolveUrl : String → String → String)
    (normalize : String → Option String) (locale n host pathOnHost : String)
    (qp : List (String × String)) (silent : Bool) (nowMs nowMs2 : Nat)
    (h : normalize locale = some n) :
    loadLocaleUrl resolveUrl normalize locale ⟨true, host, pathOnHost, qp, silent⟩ nowMs
      = some (resolveUrl host (pathOnHost ++ n ++ "?type=" ++ "json"))
    ∧ loadLocaleUrl resolveUrl normalize locale ⟨true, host, pathOnHost, qp, silent⟩ nowMs
      = loadLocaleUrl resolveUrl normalize locale ⟨false, host, pathOnHost, qp, silent⟩ nowMs2 := by
  have hty : ∀ ts : String,
      listLookup "type" (listSet "ts" ts (listSet "type" "json" qp)) = some "json" := by
    intro ts
    rw [listLookup_listSet_ne _ _ _ _ (by decide), listLookup_listSet_self]
  constructor
  · simp [loadLocaleUrl, h, hty]
  · simp [loadLocaleUrl, h, hty, listLookup_listSet_self]

/-- Claim C3, witness: a fresh load of "en" from host
http://localhost:3000/ under path universe/locale/ at clock 1700000000000
issues exactly the URL http://localhost:3000/universe/locale/en?type=json,
with no timestamp parameter. -/
theorem C3_url_no_timestamp_witness :
    sampleNormalize "en" = some "en"
    ∧ loadLocaleUrl (fun base p => base ++ p) sampleNormalize "en"
        ⟨true, "http://localhost:3000/", "universe/locale/", [], false⟩ 1700000000000
      = some "http://localhost:3000/universe/locale/en?type=json" := by
  refine ⟨rfl, ?_⟩
  exact (C3_url_no_timestamp (fun base p => base ++ p) sampleNormalize "en" "en"
    "http://localhost:3000/" "universe/locale/" [] false 1700000000000 0 rfl).1

/-- Claim C1, counterexample: a GET for the path "/xx" where "xx" was
never loaded (empty cache, so no entry with a timestamp exists) is
answered with status 200, not 501: `getCache` creates a timestamped entry
on the spot, so the no-updatedAt check that would produce 501 never
fires. -/
theorem C1_counterexample :
    (handler sampleFormatters [] ⟨"/xx", none, none, none, false, false⟩
        "Thu, 01 Jan 1970 00:00:00 GMT" []).1.status = some 200
    ∧ (handler sampleFormatters [] ⟨"/xx", none, none, none, false, false⟩
        "Thu, 01 Jan 1970 00:00:00 GMT" []).1.status ≠ some 501 := by
  exact ⟨rfl, by decide⟩

/-- Claim C1 (amended): for a GET whose path segment matches the locale
pattern and whose type parameter passes the 415 check, even when the cache
holds no entry for the locale, the handler responds 200 with the selected
format's output as body (the lazily created entry carries the non-empty
clock string, so the 501 branch is not taken). -/
theorem C1_amended_theorem (fmts : Formatters) (th : List (String × String))
    (req : I18nRequest) (L now : String) (c : Cache)
    (hmatch : localeMatch req.pathname = some L) (hL : L ≠ "")
    (hnone : listLookup L c = none)
    (htype : typeCheckFails req.typeParam = false)
    (hnow : now ≠ "") :
    (handler fmts th req now c).1.status = some 200
    ∧ (handler fmts th req now c).1.body
      = some (selectedFormatOutput fmts req L) := by
  have hgc : getCache L now c = (.entry ⟨now⟩, listSet L ⟨now⟩ c) := by
    simp [getCache, hL, hnone]
  rw [handler, htype, hmatch]
  simp only [Bool.false_eq_true, if_false, hgc]
  rw [if_neg hnow]
  constructor
  · split_ifs <;> rfl
  · simp only [selectedFormatOutput]
    split_ifs <;> rfl

/-- Claim C1 (amended), witness: the GET of "/xx" on the empty cache with
no type parameter returns status 200 with the default formatter's output
as body. -/
theorem C1_amended_witness :
    localeMatch "/xx" = some "xx"
    ∧ ("xx" : String) ≠ ""
    ∧ listLookup "xx" ([] : Cache) = none
    ∧ typeCheckFails none = false
    ∧ ("T" : String) ≠ ""
    ∧ (handler sampleFormatters [] ⟨"/xx", none, none, none, false, false⟩
        "T" []).1.status = some 200
    ∧ (handler sampleFormatters [] ⟨"/xx", none, none, none, false, false⟩
        "T" []).1.body
      = some (selectedFormatOutput sampleFormatters
          ⟨"/xx", none, none, none, false, false⟩ "xx") := by
  have h := C1_amended_theorem sampleFormatters []
    ⟨"/xx", none, none, none, false, false⟩ "xx" "T" [] rfl (by decide) rfl rfl
    (by decide)
  exact ⟨rfl, by decide, rfl, rfl, by decide, h.1, h.2⟩

/-- Claim C7, counterexample: the path "/1x" does not match the locale
pattern, yet a request for it carrying the query parameter type=xml is
answered with 415 instead of being passed through — the type check runs
before the locale pattern is consulted, so pass-through does not hold
regardless of the query parameters. -/
theorem C7_counterexample :
    (handler sampleFormatters [] ⟨"/1x", some "xml", none, none, false, false⟩
        "T" []).1 = .respond 415 [] none
    ∧ (handler sampleFormatters [] ⟨"/1x", some "xml", none, none, false, false⟩
        "T" []).1 ≠ .next := by
  exact ⟨rfl, by decide⟩

/-- Claim C7 (amended): when the type query parameter is absent, empty, or
one of js/json/yml, a request whose leading path segment does not match
the locale pattern is passed through unhandled with no response written
and the cache untouched; a request with any other non-empty type value
receives a 415 response before the locale pattern is consulted. -/
theorem C7_amended_theorem (fmts : Formatters) (th : List (String × String))
    (req : I18nRequest) (now : String) (c : Cache)
    (htype : typeCheckFails req.typeParam = false)
    (hmatch : localeMatch req.pathname = none) :
    handler fmts th req now c = (.next, c) := by
  rw [handler, htype, hmatch]
  simp

/-- Claim C7 (amended), witness: without a type parameter, the request for
"/1x" is passed through and the cache is unchanged. -/
theorem C7_amended_witness :
    typeCheckFails none = false
    ∧ localeMatch "/1x" = none
    ∧ handler sampleFormatters [] ⟨"/1x", none, none, none, false, false⟩ "T" []
      = (.next, []) := by
  refine ⟨rfl, rfl, ?_⟩
  exact C7_amended_theorem sampleFormatters []
    ⟨"/1x", none, none, none, false, false⟩ "T" [] rfl rfl

/-- Claim C10: `getCache` on a non-empty locale with no existing entry is
not a pure read — it inserts an entry stamped with the current clock into
the cache and returns it; consequently a single request through the
delivery handler whose path matches that locale (and whose type parameter
passes the 415 check) leaves that entry in the cache, although no
translations were ever loaded for the locale. -/
theorem C10_getcache_inserts (L now : String) (c : Cache) (fmts : Formatters)
    (th : List (String × String)) (req : I18nRequest)
    (hL : L ≠ "") (hnone : listLookup L c = none)
    (hmatch : localeMatch req.pathname = some L)
    (htype : typeCheckFails req.typeParam = false) :
    getCache L now c = (.entry ⟨now⟩, listSet L ⟨now⟩ c)
    ∧ listLookup L (listSet L ⟨now⟩ c) = some ⟨now⟩
    ∧ listLookup L (handler fmts th req now c).2 = some ⟨now⟩ := by
  have hgc : getCache L now c = (.entry ⟨now⟩, listSet L ⟨now⟩ c) := by
    simp [getCache, hL, hnone]
  refine ⟨hgc, listLookup_listSet_self L ⟨now⟩ c, ?_⟩
  have h2 : (handler fmts th req now c).2 = listSet L ⟨now⟩ c := by
    rw [handler, htype, hmatch]
    simp only [Bool.false_eq_true, if_false, hgc]
    split_ifs <;> rfl
  rw [h2]
  exact listLookup_listSet_self L ⟨now⟩ c

/-- Claim C10, witness: one GET of "/xx" on the empty cache leaves behind
the cache entry for "xx" stamped with the request-time clock. -/
theorem C10_getcache_inserts_witness :
    ("xx" : String) ≠ ""
    ∧ listLookup "xx" ([] : Cache) = none
    ∧ localeMatch "/xx" = some "xx"
    ∧ typeCheckFails none = false
    ∧ listLookup "xx"
        (handler sampleFormatters [] ⟨"/xx", none, none, none, false, false⟩
          "T" []).2 = some ⟨"T"⟩ := by
  refine ⟨by decide, rfl, rfl, rfl, ?_⟩
  exact (C10_getcache_inserts "xx" "T" [] sampleFormatters []
    ⟨"/xx", none, none, none, false, false⟩ (by decide) rfl rfl rfl).2.2

end UniverseI18n
